import Mathlib

/-!
Shallow embedding of the detection pipeline and quarantine vault of the
Antivirus repository (scanner_enhanced.py, database.py, heuristic_engine.py,
sandbox.py, cache_manager.py, rate_limiter.py, quarantine.py), together with
theorems settling the specification claims about them.
-/

namespace AV

/-! ## Signature store (src/database.py) -/

/-- ASCII lowercasing, the embedding of Python `str.lower()`. -/
def str_lower (s : String) : String := ⟨s.data.map Char.toLower⟩

/-- One row of the `signatures` SQLite table. -/
structure SignatureRow where
  id : Nat
  name : String
  sha256 : String
  created_at : String
deriving DecidableEq, Repr

/-- `database.lookup_signature`: `SELECT ... WHERE sha256 = ?` with the query
hash lowercased; `fetchone` returns the first matching row or `None`. -/
def lookup_signature (store : List SignatureRow) (sha256 : String) :
    Option SignatureRow :=
  store.find? (fun r => r.sha256 = str_lower sha256)

/-! ## Engine result shapes consumed by the scanner
(dicts produced by the VirusTotal / MalwareBazaar clients, the heuristic
engine, and the sandbox manager). -/

/-- Normalized VirusTotal lookup result (`virustotal.py` result dict as read
by `scan_file`: keys `found`, `malicious`, `suspicious`, `threat_names`). -/
structure VTResult where
  found : Bool
  malicious : Nat
  suspicious : Nat
  threat_names : List String
deriving DecidableEq, Repr

/-- MalwareBazaar lookup result as read by `scan_file`
(keys `found` and `signature`; `signature` may be absent or empty). -/
structure MBResult where
  found : Bool
  signature : Option String
deriving DecidableEq, Repr

/-- Heuristic engine result as read by `scan_file`
(keys `is_suspicious` and `threat_score`). -/
structure HeurResult where
  is_suspicious : Bool
  threat_score : Nat
deriving DecidableEq, Repr

/-- Per-process counters of `SandboxResult.process_activity`. -/
structure ProcessActivity where
  cpu_usage : Nat := 0
  memory_usage : Nat := 0
  threads_created : Nat := 0
  child_processes : Nat := 0
deriving DecidableEq, Repr

/-- `SandboxResult` dataclass of `behavior/sandbox.py`. -/
structure SandboxResult where
  file_path : String
  executed : Bool := false
  timeout_occurred : Bool := false
  suspicious_behaviors : List String := []
  process_activity : ProcessActivity := {}
  network_activity : List String := []
  file_operations : List String := []
  registry_operations : List String := []
  threat_score : Nat := 0
  is_malicious : Bool := false
  error : Option String := none
deriving DecidableEq, Repr

/-! ## ScanFinding and the scan pipeline (src/scanner_enhanced.py) -/

/-- Summary dict stored in `finding.sandbox_result` by `scan_file`. -/
structure SandboxSummary where
  executed : Bool
  suspicious_behaviors : List String
  threat_score : Nat
  is_malicious : Bool
  network_activity : Nat
  file_operations : Nat
  error : Option String
deriving DecidableEq, Repr

/-- The `ScanFinding` dataclass. `threat_level` is one of the strings
`"clean"`, `"suspicious"`, `"malicious"`. -/
structure ScanFinding where
  path : String
  sha256 : String
  file_size : Nat
  signature_match : Option String := none
  virustotal_result : Option VTResult := none
  malwarebazaar_result : Option MBResult := none
  heuristic_result : Option HeurResult := none
  sandbox_result : Option SandboxSummary := none
  threat_level : String := "clean"
  detection_methods : List String := []
  threat_names : List String := []
deriving DecidableEq, Repr

/-- `ScanFinding.is_malicious` property: `threat_level in ["malicious", "suspicious"]`. -/
def ScanFinding.is_malicious (f : ScanFinding) : Bool :=
  ["malicious", "suspicious"].contains f.threat_level

/-- `ScanFinding.is_confirmed_malicious` property: `threat_level == "malicious"`. -/
def ScanFinding.is_confirmed_malicious (f : ScanFinding) : Bool :=
  f.threat_level == "malicious"

/-- Configuration flags of `EnhancedScanner` (`self.use_*` plus the two
cloud clients' `enabled` flags). -/
structure ScannerConfig where
  use_cloud : Bool
  use_heuristic : Bool
  use_signature : Bool
  use_sandbox : Bool
  vt_enabled : Bool
  mb_enabled : Bool
deriving DecidableEq, Repr

/-- Step 1 of `scan_file`: signature-based detection against the local
database. -/
def stepSignature (cfg : ScannerConfig) (store : List SignatureRow)
    (f : ScanFinding) : ScanFinding :=
  if cfg.use_signature then
    match lookup_signature store f.sha256 with
    | some row =>
        { f with
          signature_match := some row.name
          detection_methods := f.detection_methods ++ ["signature"]
          threat_names := f.threat_names ++ [row.name]
          threat_level := "malicious" }
    | none => f
  else f

/-- Step 2 of `scan_file`: VirusTotal cloud reputation. -/
def stepVirusTotal (cfg : ScannerConfig) (vt : Option VTResult)
    (f : ScanFinding) : ScanFinding :=
  if cfg.use_cloud && cfg.vt_enabled then
    let f := { f with virustotal_result := vt }
    match vt with
    | some r =>
        if r.found then
          if r.malicious ≥ 3 then
            let f := { f with
              detection_methods := f.detection_methods ++ ["virustotal"]
              threat_level := "malicious" }
            if r.threat_names = [] then f
            else { f with threat_names := f.threat_names ++ r.threat_names.take 3 }
          else if r.malicious + r.suspicious ≥ 2 then
            let f :=
              if f.threat_level = "clean" then { f with threat_level := "suspicious" }
              else f
            { f with detection_methods := f.detection_methods ++ ["virustotal"] }
          else f
        else f
    | none => f
  else f

/-- Step 3 of `scan_file`: MalwareBazaar lookup. -/
def stepMalwareBazaar (cfg : ScannerConfig) (mb : Option MBResult)
    (f : ScanFinding) : ScanFinding :=
  if cfg.use_cloud && cfg.mb_enabled then
    let f := { f with malwarebazaar_result := mb }
    match mb with
    | some r =>
        if r.found then
          let f := { f with
            detection_methods := f.detection_methods ++ ["malwarebazaar"]
            threat_level := "malicious" }
          match r.signature with
          | some s => if s = "" then f else { f with threat_names := f.threat_names ++ [s] }
          | none => f
        else f
    | none => f
  else f

/-- Step 4 of `scan_file`: heuristic analysis.  The inner branch runs only
when the current level is `"clean"`. -/
def stepHeuristic (cfg : ScannerConfig) (h : HeurResult)
    (f : ScanFinding) : ScanFinding :=
  if cfg.use_heuristic then
    let f := { f with heuristic_result := some h }
    if h.is_suspicious then
      let f := { f with detection_methods := f.detection_methods ++ ["heuristic"] }
      if f.threat_level = "clean" then
        if h.threat_score ≥ 70 then
          { f with
            threat_level := "malicious"
            threat_names := f.threat_names ++ ["Heuristic:Generic"] }
        else { f with threat_level := "suspicious" }
      else f
    else f
  else f

/-- Step 5 of `scan_file`: sandbox analysis, run only for findings already
flagged suspicious or malicious. -/
def stepSandbox (cfg : ScannerConfig) (sb : SandboxResult)
    (f : ScanFinding) : ScanFinding :=
  if cfg.use_sandbox && !(f.threat_level = "clean") then
    let f := { f with
      sandbox_result := some
        { executed := sb.executed
          suspicious_behaviors := sb.suspicious_behaviors
          threat_score := sb.threat_score
          is_malicious := sb.is_malicious
          network_activity := sb.network_activity.length
          file_operations := sb.file_operations.length
          error := sb.error } }
    if sb.is_malicious then
      { f with
        detection_methods := f.detection_methods ++ ["sandbox"]
        threat_level := "malicious"
        threat_names := f.threat_names ++ ["Sandbox:Behavioral"] }
    else f
  else f

/-- `EnhancedScanner.scan_file` on the successful-hash path: the fresh
finding is pushed through the five detection steps in source order.  The
engine results (`vt`, `mb`, `heur`, `sb`) are the values the corresponding
clients would return for this file. -/
def scan_file (cfg : ScannerConfig) (store : List SignatureRow)
    (vt : Option VTResult) (mb : Option MBResult) (heur : HeurResult)
    (sb : SandboxResult) (path sha256 : String) (file_size : Nat) :
    ScanFinding :=
  stepSandbox cfg sb
    (stepHeuristic cfg heur
      (stepMalwareBazaar cfg mb
        (stepVirusTotal cfg vt
          (stepSignature cfg store
            { path := path, sha256 := sha256, file_size := file_size }))))

/-- Rank of a threat level in the order clean < suspicious < malicious. -/
def levelRank (s : String) : Nat :=
  if s = "malicious" then 2 else if s = "suspicious" then 1 else 0

/-- The threat level of the finding after each stage of `scan_file`:
initial, then after signature, VirusTotal, MalwareBazaar, heuristic and
sandbox steps. -/
def scan_levels (cfg : ScannerConfig) (store : List SignatureRow)
    (vt : Option VTResult) (mb : Option MBResult) (heur : HeurResult)
    (sb : SandboxResult) (path sha256 : String) (file_size : Nat) :
    List String :=
  let f0 : ScanFinding := { path := path, sha256 := sha256, file_size := file_size }
  let f1 := stepSignature cfg store f0
  let f2 := stepVirusTotal cfg vt f1
  let f3 := stepMalwareBazaar cfg mb f2
  let f4 := stepHeuristic cfg heur f3
  let f5 := stepSandbox cfg sb f4
  [f0.threat_level, f1.threat_level, f2.threat_level, f3.threat_level,
   f4.threat_level, f5.threat_level]

/-! ## Heuristic engine scoring (src/heuristic/heuristic_engine.py)

The three sub-analyzers do file I/O; `analyze_file` consumes their result
dicts.  We embed the fields of those dicts that `analyze_file` reads and the
scoring logic itself. -/

/-- Fields of the entropy-analyzer result read by `analyze_file`. -/
structure EntropyOut where
  suspicious : Bool
deriving DecidableEq, Repr

/-- Fields of the PE-analyzer result read by `analyze_file`
(`analyze_pe_file` returns `None` on a pefile parse failure). -/
structure PEOut where
  suspicious : Bool
  is_packed : Bool
deriving DecidableEq, Repr

/-- Fields of the string-analyzer result read by `analyze_file`. -/
structure StringOut where
  suspicious : Bool
  keywords_found : List String
deriving DecidableEq, Repr

/-- The `threat_score` accumulated by `HeuristicEngine.analyze_file`:
+15 for suspicious entropy; if the PE header check passed, +25 when the PE
result is suspicious and +20 when it is packed; +20 for suspicious strings
and, inside that branch, +5 per keyword found; +15 for obfuscation.
No cap is applied. -/
def heuristic_threat_score (entropy : EntropyOut) (pe_header : Bool)
    (pe : Option PEOut) (strres : StringOut) (obfuscated : Bool) : Nat :=
  let s := 0
  let s := if entropy.suspicious then s + 15 else s
  let s :=
    if pe_header then
      match pe with
      | some p =>
          let s := if p.suspicious then s + 25 else s
          if p.is_packed then s + 20 else s
      | none => s
    else s
  let s :=
    if strres.suspicious then
      let s := s + 20
      if strres.keywords_found ≠ [] then s + strres.keywords_found.length * 5
      else s
    else s
  if obfuscated then s + 15 else s

/-- Sensitivity levels: the keys of `HeuristicEngine._get_thresholds`. -/
inductive Sensitivity where
  | low | medium | high | paranoid
deriving DecidableEq, Repr

/-- `HeuristicEngine._get_thresholds` lookup. -/
def sensitivity_threshold : Sensitivity → Nat
  | .low => 60
  | .medium => 40
  | .high => 25
  | .paranoid => 15

/-- The `is_suspicious` flag set by `analyze_file`:
`threat_score >= thresholds[sensitivity]`. -/
def heuristic_is_suspicious (sens : Sensitivity) (score : Nat) : Bool :=
  score ≥ sensitivity_threshold sens

/-- The 20-element `SUSPICIOUS_KEYWORDS` set of `string_analyzer.py`. -/
def SUSPICIOUS_KEYWORDS : List String :=
  ["keylog", "password", "credential", "token", "cookie",
   "wallet", "bitcoin", "crypto", "ransom", "encrypt",
   "payload", "shellcode", "inject", "hook", "rootkit",
   "backdoor", "trojan", "rat", "stealer", "miner"]

/-! ## Local sandbox (src/behavior/sandbox.py, LocalSandbox) -/

/-- `LocalSandbox._is_executable`: extension membership after lowercasing. -/
def is_executable_suffix (suffix : String) : Bool :=
  [".exe", ".dll", ".bat", ".cmd", ".ps1", ".vbs", ".js"].contains (str_lower suffix)

/-- `LocalSandbox._calculate_threat_score`: weighted sum over observed
behaviors and activity, capped at 100. -/
def calculate_threat_score (r : SandboxResult) : Nat :=
  let score := 0
  let score := score + r.suspicious_behaviors.length * 15
  let score := score + r.network_activity.length * 10
  let score :=
    if r.file_operations.length > 10 then score + 20
    else if r.file_operations.length > 5 then score + 10
    else score
  let score :=
    if r.registry_operations.length > 5 then score + 20
    else if r.registry_operations.length > 2 then score + 10
    else score
  let score := if r.process_activity.child_processes > 3 then score + 15 else score
  let score := if r.process_activity.threads_created > 10 then score + 10 else score
  min score 100

/-- `LocalSandbox._simulate_behavioral_analysis`: zeroed process activity
and file-size-outlier behaviors only; no execution happens. -/
def simulate_behavioral_analysis (file_size : Nat) (r : SandboxResult) :
    SandboxResult :=
  let r := { r with process_activity :=
    { cpu_usage := 0, memory_usage := 0, threads_created := 0, child_processes := 0 } }
  let r :=
    if file_size < 1024 then
      { r with suspicious_behaviors :=
          r.suspicious_behaviors ++ ["Unusually small executable size"] }
    else r
  if file_size > 50 * 1024 * 1024 then
    { r with suspicious_behaviors :=
        r.suspicious_behaviors ++ ["Unusually large file size"] }
  else r

/-- `LocalSandbox._execute_monitored`: simulation mode, `executed` stays
`False` and only the static triage of `_simulate_behavioral_analysis` runs. -/
def execute_monitored (file_size : Nat) (r : SandboxResult) : SandboxResult :=
  let r := { r with executed := false }
  simulate_behavioral_analysis file_size r

/-- `LocalSandbox.analyze_file` for a file with the given suffix and size. -/
def local_analyze (enabled : Bool) (path suffix : String) (file_size : Nat) :
    SandboxResult :=
  let result : SandboxResult := { file_path := path }
  if !enabled then { result with error := some "Sandbox disabled" }
  else if !is_executable_suffix suffix then
    { result with error := some "File is not executable" }
  else
    let result := execute_monitored file_size result
    let result := { result with threat_score := calculate_threat_score result }
    { result with is_malicious := result.threat_score ≥ 60 }

/-! ## Reputation cache (src/api_integration/cache_manager.py)

Timestamps are `time.time()` values; we model them as exact integer times.
A cache file on disk is modelled by whether it exists and, when it exists, by the
parse outcome: `none` for corrupt/unreadable content (JSONDecodeError or
IOError), `some (timestamp, value)` for a well-formed entry. -/

/-- `CacheManager.get`.  Returns the value handed back to the caller and
whether the entry file was deleted (lazy eviction). -/
def cache_get {V : Type} (file_exists : Bool)
    (parsed : Option (ℤ × Option V)) (now ttl_seconds : ℤ) :
    Option V × Bool :=
  if !file_exists then (none, false)
  else
    match parsed with
    | none => (none, false)
    | some (timestamp, value) =>
        if now - timestamp > ttl_seconds then (none, true)
        else (value, false)

/-- `CacheManager.__init__`: the TTL in seconds is `ttl_hours * 3600`. -/
def cache_ttl_seconds (ttl_hours : ℤ) : ℤ := ttl_hours * 3600

/-! ## Rate limiter (src/api_integration/rate_limiter.py)

`acquire` runs under a lock, reads `time.time()` on entry (`now`), drops
calls older than the window from the front of the deque, sleeps to the
window boundary of the oldest retained call when the limit is reached, and
records the post-sleep clock value.  We model clock values as exact integer
times and `time.sleep(s)` as advancing the clock by exactly `s`. -/

/-- One `RateLimiter.acquire` call: given the deque and the clock on entry,
returns the deque after the call and the recorded call time. -/
def rl_acquire (max_calls : Nat) (time_window : ℤ) (calls : List ℤ)
    (now : ℤ) : List ℤ × ℤ :=
  let calls := calls.dropWhile (fun t => t < now - time_window)
  if calls.length ≥ max_calls then
    let sleep_time := calls.headD 0 + time_window - now
    if sleep_time > 0 then
      let now := now + sleep_time
      let calls := calls.dropWhile (fun t => t < now - time_window)
      (calls ++ [now], now)
    else (calls ++ [now], now)
  else (calls ++ [now], now)

/-- A sequence of `acquire` calls entering the lock at the given clock
values: final deque together with the history of recorded call times. -/
def rl_run (max_calls : Nat) (time_window : ℤ) (entries : List ℤ) :
    List ℤ × List ℤ :=
  entries.foldl
    (fun acc now =>
      let r := rl_acquire max_calls time_window acc.1 now
      (r.1, acc.2 ++ [r.2]))
    ([], [])

/-! ## Quarantine vault (src/quarantine.py)

The vault state is the set of ciphertext blobs on disk (an association list
keyed by quarantine id, written with overwrite semantics like `open(..,
'wb')`) and the persisted index document.  Fallible disk writes are modelled
by injected success flags; a failed blob write raises (caught by the
`except` in `quarantine_file`), while a failed index write is swallowed
inside `_save_index` (`except IOError: pass`). -/

/-- One entry of the quarantine index. -/
structure QEntry where
  id : String
  original_path : String
  threat_name : String
  detection_method : String
  quarantined_at : String
  file_size : Nat
  encrypted : Bool
deriving DecidableEq, Repr

/-- On-disk state of the vault. -/
structure VaultState where
  blobs : List (String × List Nat)
  index : List QEntry
deriving DecidableEq, Repr

/-- `QuarantineManager._save_index`: the new index is persisted only when
the write succeeds; an `IOError` is swallowed and the old document stays. -/
def save_index (write_ok : Bool) (old new : List QEntry) : List QEntry :=
  if write_ok then new else old

/-- Outcome of `QuarantineManager.quarantine_file`: the vault state, whether
the original file was deleted, and the returned boolean. -/
structure QuarantineOutcome where
  state : VaultState
  original_deleted : Bool
  returned : Bool
deriving DecidableEq, Repr

/-- `QuarantineManager.quarantine_file` on a file at `original_path` with
contents `data`.  `encrypt_enabled` mirrors the manager's config and `enc`
the Fernet cipher; `qid` is the generated quarantine id; `blob_write_ok`
and `index_write_ok` inject disk-write failures. -/
def quarantine_file (st : VaultState) (file_exists : Bool) (data : List Nat)
    (encrypt_enabled : Bool) (enc : List Nat → List Nat)
    (qid original_path threat_name detection_method quarantined_at : String)
    (file_size : Nat) (blob_write_ok index_write_ok : Bool) :
    QuarantineOutcome :=
  if !file_exists then
    { state := st, original_deleted := false, returned := false }
  else
    let file_data := if encrypt_enabled then enc data else data
    if !blob_write_ok then
      { state := st, original_deleted := false, returned := false }
    else
      let blobs := st.blobs.filter (fun p => p.1 ≠ qid) ++ [(qid, file_data)]
      let entry : QEntry :=
        { id := qid
          original_path := original_path
          threat_name := threat_name
          detection_method := detection_method
          quarantined_at := quarantined_at
          file_size := file_size
          encrypted := encrypt_enabled }
      let index := save_index index_write_ok st.index (st.index ++ [entry])
      { state := { blobs := blobs, index := index }
        original_deleted := true
        returned := true }

/-- Outcome of `QuarantineManager.restore_file`: the vault state, the write
performed on the normal filesystem (target path and bytes), and the
returned boolean. -/
structure RestoreOutcome where
  state : VaultState
  written : Option (String × List Nat)
  returned : Bool
deriving DecidableEq, Repr

/-- `QuarantineManager.restore_file`.  `cipher_present` mirrors
`self._cipher is not None` (true exactly when encryption is enabled) and
`dec` the Fernet decryption; `index_write_ok` injects a failure of the
index save inside `_remove_from_index`. -/
def restore_file (st : VaultState) (qid : String) (restore_path : Option String)
    (cipher_present : Bool) (dec : List Nat → List Nat)
    (index_write_ok : Bool) : RestoreOutcome :=
  match st.index.find? (fun e => e.id = qid) with
  | none => { state := st, written := none, returned := false }
  | some entry =>
      match st.blobs.find? (fun p => p.1 = qid) with
      | none => { state := st, written := none, returned := false }
      | some blob =>
          let file_data :=
            if entry.encrypted && cipher_present then dec blob.2 else blob.2
          let target_path := restore_path.getD entry.original_path
          let blobs := st.blobs.filter (fun p => p.1 ≠ qid)
          let index :=
            save_index index_write_ok st.index
              (st.index.filter (fun e => e.id ≠ qid))
          { state := { blobs := blobs, index := index }
            written := some (target_path, file_data)
            returned := true }

/-! ## Concrete instances used by witnesses and counterexamples -/

def C1w_store : List SignatureRow :=
  [{ id := 1, name := "Test.Threat", sha256 := "aa11", created_at := "2025-01-01" }]

def C1w_cfg : ScannerConfig :=
  { use_cloud := true, use_heuristic := true, use_signature := true,
    use_sandbox := true, vt_enabled := true, mb_enabled := true }

def C1w_scan : ScanFinding :=
  scan_file C1w_cfg C1w_store
    (some { found := true, malicious := 5, suspicious := 1, threat_names := ["VT.Name"] })
    (some { found := true, signature := some "MB.Sig" })
    { is_suspicious := true, threat_score := 90 }
    { file_path := "f.exe", is_malicious := true }
    "f.exe" "AA11" 10

/-- Scanner configuration for the C5 counterexample: cloud and heuristic
detection on, MalwareBazaar and the sandbox off. -/
def C5x_cfg : ScannerConfig :=
  { use_cloud := true, use_heuristic := true, use_signature := true,
    use_sandbox := false, vt_enabled := true, mb_enabled := false }

/-- VirusTotal result with 1 malicious + 1 suspicious engine: enough for the
reputation step to escalate clean to suspicious, not to malicious. -/
def C5x_vt : VTResult :=
  { found := true, malicious := 1, suspicious := 1, threat_names := [] }

/-- Heuristic result that is suspicious with score exactly 70. -/
def C5x_heur : HeurResult := { is_suspicious := true, threat_score := 70 }

/-- The C5 counterexample scan: signature store empty, reputation says
suspicious, heuristic says suspicious with score 70. -/
def C5x_scan : ScanFinding :=
  scan_file C5x_cfg [] (some C5x_vt) none C5x_heur { file_path := "f.exe" }
    "f.exe" "00" 1

/-- Quarantine outcome for the C3 failing input: the original exists, the
blob write succeeds and the index write fails. -/
def C3x_outcome : QuarantineOutcome :=
  quarantine_file { blobs := [], index := [] } true [1, 2, 3] true
    (fun l => l.map (· + 1)) "20250101_000000_1" "/home/user/mal.exe"
    "Test.Threat" "signature" "2025-01-01T00:00:00+00:00" 3 true false

/-- Recorded-call history of the C7 failing trace: limit 1 per 60-second
window, acquires entering at times 0, 0 and 60. -/
def C7x_history : List ℤ := (rl_run 1 60 [0, 0, 60]).2

/-! ## Helper lemmas about the scan pipeline -/

theorem levelRank_le_two (s : String) : levelRank s ≤ 2 := by
  unfold levelRank
  split
  · exact le_refl _
  · split <;> omega

theorem levelRank_eq_two_iff (s : String) : levelRank s = 2 ↔ s = "malicious" := by
  unfold levelRank
  split
  · simp_all
  · split <;> simp_all

theorem stepSignature_level_mono (cfg : ScannerConfig) (store : List SignatureRow)
    (f : ScanFinding) :
    levelRank f.threat_level ≤ levelRank (stepSignature cfg store f).threat_level := by
  unfold stepSignature
  split
  · split
    · simpa [levelRank] using levelRank_le_two f.threat_level
    · exact le_refl _
  · exact le_refl _

theorem stepVirusTotal_level_mono (cfg : ScannerConfig) (vt : Option VTResult)
    (f : ScanFinding) :
    levelRank f.threat_level ≤ levelRank (stepVirusTotal cfg vt f).threat_level := by
  unfold stepVirusTotal
  dsimp only
  split
  · split
    · split
      · split
        · split
          · simpa [levelRank] using levelRank_le_two f.threat_level
          · simpa [levelRank] using levelRank_le_two f.threat_level
        · split
          · split
            · simp_all [levelRank]
            · exact le_refl _
          · exact le_refl _
      · exact le_refl _
    · exact le_refl _
  · exact le_refl _

theorem stepMalwareBazaar_level_mono (cfg : ScannerConfig) (mb : Option MBResult)
    (f : ScanFinding) :
    levelRank f.threat_level ≤ levelRank (stepMalwareBazaar cfg mb f).threat_level := by
  unfold stepMalwareBazaar
  dsimp only
  split
  · split
    · split
      · split
        · split
          · simpa [levelRank] using levelRank_le_two f.threat_level
          · simpa [levelRank] using levelRank_le_two f.threat_level
        · simpa [levelRank] using levelRank_le_two f.threat_level
      · exact le_refl _
    · exact le_refl _
  · exact le_refl _

theorem stepHeuristic_level_mono (cfg : ScannerConfig) (h : HeurResult)
    (f : ScanFinding) :
    levelRank f.threat_level ≤ levelRank (stepHeuristic cfg h f).threat_level := by
  unfold stepHeuristic
  dsimp only
  split
  · split
    · split
      · split
        · simp_all [levelRank]
        · simp_all [levelRank]
      · exact le_refl _
    · exact le_refl _
  · exact le_refl _

theorem stepSandbox_level_mono (cfg : ScannerConfig) (sb : SandboxResult)
    (f : ScanFinding) :
    levelRank f.threat_level ≤ levelRank (stepSandbox cfg sb f).threat_level := by
  unfold stepSandbox
  dsimp only
  split
  · split
    · simpa [levelRank] using levelRank_le_two f.threat_level
    · exact le_refl _
  · exact le_refl _

theorem stepVirusTotal_names_mono (cfg : ScannerConfig) (vt : Option VTResult)
    (f : ScanFinding) (x : String) (hx : x ∈ f.threat_names) :
    x ∈ (stepVirusTotal cfg vt f).threat_names := by
  unfold stepVirusTotal
  dsimp only
  repeat' split
  all_goals simp_all [List.mem_append]

theorem stepMalwareBazaar_names_mono (cfg : ScannerConfig) (mb : Option MBResult)
    (f : ScanFinding) (x : String) (hx : x ∈ f.threat_names) :
    x ∈ (stepMalwareBazaar cfg mb f).threat_names := by
  unfold stepMalwareBazaar
  dsimp only
  repeat' split
  all_goals simp_all [List.mem_append]

theorem stepHeuristic_names_mono (cfg : ScannerConfig) (h : HeurResult)
    (f : ScanFinding) (x : String) (hx : x ∈ f.threat_names) :
    x ∈ (stepHeuristic cfg h f).threat_names := by
  unfold stepHeuristic
  dsimp only
  repeat' split
  all_goals simp_all [List.mem_append]

theorem stepSandbox_names_mono (cfg : ScannerConfig) (sb : SandboxResult)
    (f : ScanFinding) (x : String) (hx : x ∈ f.threat_names) :
    x ∈ (stepSandbox cfg sb f).threat_names := by
  unfold stepSandbox
  dsimp only
  repeat' split
  all_goals simp_all [List.mem_append]

theorem levelRank_malicious : levelRank "malicious" = 2 := by decide

/-- A step never downgrades an established `"malicious"` level: generic
consequence of monotonicity and the rank bound. -/
theorem preserve_malicious_of_mono {f g : ScanFinding}
    (hmono : levelRank f.threat_level ≤ levelRank g.threat_level)
    (hm : f.threat_level = "malicious") : g.threat_level = "malicious" := by
  rw [hm, levelRank_malicious] at hmono
  exact (levelRank_eq_two_iff _).1 (le_antisymm (levelRank_le_two _) hmono)

/-! ## Claim C1 -/

/-- Claim C1: for every scanned file whose SHA-256 digest matches a record in
the signature store (with signature detection enabled), the resulting finding
has `threat_level = "malicious"` and the record's name is in `threat_names`,
regardless of what the reputation, heuristic, or behavioral signals report. -/
theorem C1_signature_hit_malicious
    (cfg : ScannerConfig) (store : List SignatureRow)
    (vt : Option VTResult) (mb : Option MBResult) (heur : HeurResult)
    (sb : SandboxResult) (path sha256 : String) (file_size : Nat)
    (row : SignatureRow)
    (huse : cfg.use_signature = true)
    (hsig : lookup_signature store sha256 = some row) :
    (scan_file cfg store vt mb heur sb path sha256 file_size).threat_level
        = "malicious" ∧
    row.name ∈ (scan_file cfg store vt mb heur sb path sha256 file_size).threat_names := by
  unfold scan_file
  set f0 : ScanFinding := { path := path, sha256 := sha256, file_size := file_size } with hf0
  have h1 : (stepSignature cfg store f0).threat_level = "malicious" ∧
      row.name ∈ (stepSignature cfg store f0).threat_names := by
    unfold stepSignature
    have : lookup_signature store f0.sha256 = some row := hsig
    simp [huse, this]
  set f1 := stepSignature cfg store f0
  set f2 := stepVirusTotal cfg vt f1
  set f3 := stepMalwareBazaar cfg mb f2
  set f4 := stepHeuristic cfg heur f3
  have l2 := preserve_malicious_of_mono (stepVirusTotal_level_mono cfg vt f1) h1.1
  have l3 := preserve_malicious_of_mono (stepMalwareBazaar_level_mono cfg mb f2) l2
  have l4 := preserve_malicious_of_mono (stepHeuristic_level_mono cfg heur f3) l3
  have l5 := preserve_malicious_of_mono (stepSandbox_level_mono cfg sb f4) l4
  have n2 := stepVirusTotal_names_mono cfg vt f1 row.name h1.2
  have n3 := stepMalwareBazaar_names_mono cfg mb f2 row.name n2
  have n4 := stepHeuristic_names_mono cfg heur f3 row.name n3
  have n5 := stepSandbox_names_mono cfg sb f4 row.name n4
  exact ⟨l5, n5⟩

/-- Witness for C1 at a concrete store and scan (note the digest is matched
case-insensitively). -/
theorem C1_signature_hit_malicious_witness :
    C1w_cfg.use_signature = true ∧
    lookup_signature C1w_store "AA11" =
      some { id := 1, name := "Test.Threat", sha256 := "aa11", created_at := "2025-01-01" } ∧
    C1w_scan.threat_level = "malicious" ∧ "Test.Threat" ∈ C1w_scan.threat_names := by
  have h := C1_signature_hit_malicious C1w_cfg C1w_store
    (some { found := true, malicious := 5, suspicious := 1, threat_names := ["VT.Name"] })
    (some { found := true, signature := some "MB.Sig" })
    { is_suspicious := true, threat_score := 90 }
    { file_path := "f.exe", is_malicious := true }
    "f.exe" "AA11" 10
    { id := 1, name := "Test.Threat", sha256 := "aa11", created_at := "2025-01-01" }
    (by decide) (by decide)
  exact ⟨rfl, by decide, h.1, h.2⟩

/-! ## Claim C2 -/

/-- Claim C2: along one file's scan, the threat level is monotonically
non-decreasing in the order clean < suspicious < malicious as the signals are
applied in the fixed source order (signature, cloud reputation, heuristic,
behavioral); no step ever downgrades the level. -/
theorem C2_scan_levels_monotone
    (cfg : ScannerConfig) (store : List SignatureRow)
    (vt : Option VTResult) (mb : Option MBResult) (heur : HeurResult)
    (sb : SandboxResult) (path sha256 : String) (file_size : Nat) :
    List.Chain' (fun a b => levelRank a ≤ levelRank b)
      (scan_levels cfg store vt mb heur sb path sha256 file_size) := by
  unfold scan_levels
  dsimp only
  refine List.Chain'.cons ?_ (List.Chain'.cons ?_ (List.Chain'.cons ?_
    (List.Chain'.cons ?_ (List.Chain'.cons ?_ (List.chain'_singleton _)))))
  · exact stepSignature_level_mono cfg store
      { path := path, sha256 := sha256, file_size := file_size }
  · exact stepVirusTotal_level_mono cfg vt
      (stepSignature cfg store { path := path, sha256 := sha256, file_size := file_size })
  · exact stepMalwareBazaar_level_mono cfg mb
      (stepVirusTotal cfg vt
        (stepSignature cfg store { path := path, sha256 := sha256, file_size := file_size }))
  · exact stepHeuristic_level_mono cfg heur
      (stepMalwareBazaar cfg mb
        (stepVirusTotal cfg vt
          (stepSignature cfg store { path := path, sha256 := sha256, file_size := file_size })))
  · exact stepSandbox_level_mono cfg sb
      (stepHeuristic cfg heur
        (stepMalwareBazaar cfg mb
          (stepVirusTotal cfg vt
            (stepSignature cfg store { path := path, sha256 := sha256, file_size := file_size }))))

/-! ## Claim C10 -/

/-- Claim C10: `is_malicious` holds exactly when the threat level is
`"malicious"` or `"suspicious"` (so a merely suspicious file reports
`is_malicious = true`), while `is_confirmed_malicious` holds exactly when
the level is `"malicious"`. -/
theorem C10_is_malicious_iff (f : ScanFinding) :
    (f.is_malicious = true ↔
      (f.threat_level = "malicious" ∨ f.threat_level = "suspicious")) ∧
    (f.is_confirmed_malicious = true ↔ f.threat_level = "malicious") := by
  unfold ScanFinding.is_malicious ScanFinding.is_confirmed_malicious
  constructor
  · simp [List.contains]
  · simp

/-! ## Claim C5 -/

/-- Claim C5 fails on the code: a scan in which the reputation step has
already raised the level to `"suspicious"` and the heuristic reports
`is_suspicious` with `threat_score = 70 ≥ 70` still ends at `"suspicious"`,
because the heuristic branch only fires when the level is `"clean"`. -/
theorem C5_counterexample :
    C5x_heur.is_suspicious = true ∧ C5x_heur.threat_score ≥ 70 ∧
    C5x_scan.threat_level = "suspicious" := by decide

/-- Claim C5 (amended): when the heuristic reports `is_suspicious`, the
heuristic step escalates only a `"clean"` level: to `"malicious"` when
`threat_score ≥ 70` and to `"suspicious"` otherwise; a level that is
already `"suspicious"` or `"malicious"` is left unchanged. -/
theorem C5_amended_heuristic_step (cfg : ScannerConfig) (h : HeurResult)
    (f : ScanFinding) (huse : cfg.use_heuristic = true)
    (hsusp : h.is_suspicious = true) :
    (f.threat_level = "clean" → h.threat_score ≥ 70 →
        (stepHeuristic cfg h f).threat_level = "malicious") ∧
    (f.threat_level = "clean" → h.threat_score < 70 →
        (stepHeuristic cfg h f).threat_level = "suspicious") ∧
    (f.threat_level ≠ "clean" →
        (stepHeuristic cfg h f).threat_level = f.threat_level) := by
  unfold stepHeuristic
  simp only [huse, hsusp, if_true]
  refine ⟨?_, ?_, ?_⟩
  · intro hclean hscore
    simp [hclean, hscore]
  · intro hclean hscore
    simp [hclean, Nat.not_le.2 hscore]
  · intro hclean
    simp [hclean]

/-- Witness for the amended C5 at concrete findings: a clean finding with
score 70 becomes malicious, and a suspicious finding stays suspicious. -/
theorem C5_amended_heuristic_step_witness :
    (stepHeuristic C5x_cfg C5x_heur
      { path := "f", sha256 := "00", file_size := 1 }).threat_level = "malicious" ∧
    (stepHeuristic C5x_cfg C5x_heur
      { path := "f", sha256 := "00", file_size := 1,
        threat_level := "suspicious" }).threat_level = "suspicious" := by
  constructor
  · exact (C5_amended_heuristic_step C5x_cfg C5x_heur
      { path := "f", sha256 := "00", file_size := 1 } (by decide) (by decide)).1
      (by decide) (by decide)
  · exact (C5_amended_heuristic_step C5x_cfg C5x_heur
      { path := "f", sha256 := "00", file_size := 1, threat_level := "suspicious" }
      (by decide) (by decide)).2.2 (by decide)

/-! ## Claim C6 -/

/-- Claim C6 fails on the code: `analyze_file` applies no cap, so with all
sub-analyzers flagged and two keywords found the total score is 105 > 100. -/
theorem C6_counterexample :
    heuristic_threat_score { suspicious := true } true
      (some { suspicious := true, is_packed := true })
      { suspicious := true, keywords_found := ["keylog", "password"] } true
      = 105 ∧ 105 > 100 := by decide

/-- Claim C6 (amended): the total `threat_score` is the uncapped sum of the
entropy, executable-structure, string/pattern, keyword, and obfuscation
contributions; it is bounded by 95 plus 5 per keyword found — not by 100,
which it can exceed — hence by 195 when the keywords are distinct members
of the fixed 20-element keyword set, as `analyze_strings` produces them. -/
theorem C6_amended_score_bound (entropy : EntropyOut) (pe_header : Bool)
    (pe : Option PEOut) (strres : StringOut) (obfuscated : Bool) :
    heuristic_threat_score entropy pe_header pe strres obfuscated
      ≤ 95 + 5 * strres.keywords_found.length ∧
    (strres.keywords_found.Nodup →
      (∀ w ∈ strres.keywords_found, w ∈ SUSPICIOUS_KEYWORDS) →
      heuristic_threat_score entropy pe_header pe strres obfuscated ≤ 195) := by
  have hbound : heuristic_threat_score entropy pe_header pe strres obfuscated
      ≤ 95 + 5 * strres.keywords_found.length := by
    unfold heuristic_threat_score
    dsimp only
    repeat' split
    all_goals omega
  refine ⟨hbound, fun hnd hsub => ?_⟩
  have hcard : strres.keywords_found.toFinset.card = strres.keywords_found.length :=
    List.toFinset_card_of_nodup hnd
  have hsub2 : strres.keywords_found.toFinset ⊆ SUSPICIOUS_KEYWORDS.toFinset := by
    intro w hw
    exact List.mem_toFinset.2 (hsub w (List.mem_toFinset.1 hw))
  have hlen : strres.keywords_found.length ≤ 20 := by
    have h1 := Finset.card_le_card hsub2
    have h2 : (SUSPICIOUS_KEYWORDS.toFinset).card ≤ 20 :=
      le_trans SUSPICIOUS_KEYWORDS.toFinset_card_le (by decide)
    omega
  omega

/-- Witness for the amended C6 at a fully flagged input with two distinct
keywords from the keyword set. -/
theorem C6_amended_score_bound_witness :
    heuristic_threat_score { suspicious := true } true
      (some { suspicious := true, is_packed := true })
      { suspicious := true, keywords_found := ["keylog", "password"] } true ≤ 105 ∧
    heuristic_threat_score { suspicious := true } true
      (some { suspicious := true, is_packed := true })
      { suspicious := true, keywords_found := ["keylog", "password"] } true ≤ 195 := by
  have h := C6_amended_score_bound { suspicious := true } true
    (some { suspicious := true, is_packed := true })
    { suspicious := true, keywords_found := ["keylog", "password"] } true
  exact ⟨h.1, h.2 (by decide) (by decide)⟩

/-! ## Claim C9 -/

/-- Claim C9: the local sandbox backend never executes the file
(`executed = false` on every path), its only suspicion signals are the two
static file-size outliers, and for a file of ordinary size (neither below
1024 bytes nor above 50 MiB) it reports zero observed behaviors. -/
theorem C9_local_sandbox_static (enabled : Bool) (path suffix : String)
    (file_size : Nat) :
    (local_analyze enabled path suffix file_size).executed = false ∧
    (∀ b ∈ (local_analyze enabled path suffix file_size).suspicious_behaviors,
        b = "Unusually small executable size" ∨ b = "Unusually large file size") ∧
    (1024 ≤ file_size → file_size ≤ 50 * 1024 * 1024 →
        (local_analyze enabled path suffix file_size).suspicious_behaviors = []) := by
  unfold local_analyze execute_monitored simulate_behavioral_analysis
  dsimp only
  repeat' split
  all_goals refine ⟨rfl, ?_, ?_⟩ <;> intros <;> simp_all <;> omega

/-- Witness for C9 at an enabled sandbox, an executable suffix, and an
ordinary 2048-byte file. -/
theorem C9_local_sandbox_static_witness :
    (local_analyze true "/tmp/a.exe" ".exe" 2048).executed = false ∧
    (local_analyze true "/tmp/a.exe" ".exe" 2048).suspicious_behaviors = [] := by
  have h := C9_local_sandbox_static true "/tmp/a.exe" ".exe" 2048
  exact ⟨h.1, h.2.2 (by decide) (by decide)⟩

/-! ## Claim C8 -/

/-- Claim C8 fails on the code at the TTL boundary: an entry whose age is
exactly the TTL (here 86400 seconds) is returned as a hit and not evicted,
because `get` only treats `now - timestamp > ttl` as expired. -/
theorem C8_counterexample :
    (86400 : ℤ) - 0 ≥ 86400 ∧
    cache_get (V := Nat) true (some (0, some 7)) 86400 86400 = (some 7, false) := by
  decide

/-- Claim C8 (amended): a read is a hit exactly when `now - timestamp ≤ ttl`
(the entry aged exactly `ttl` is still served); an entry strictly older than
`ttl` is evicted on access and read as a miss; a missing cache file or one
whose contents fail to parse yields `None` without error. -/
theorem C8_amended_cache_ttl {V : Type} (ts now ttl : ℤ) (v : Option V)
    (p : Option (ℤ × Option V)) :
    (now - ts ≤ ttl → cache_get true (some (ts, v)) now ttl = (v, false)) ∧
    (now - ts > ttl → cache_get true (some (ts, v)) now ttl = (none, true)) ∧
    cache_get (V := V) true none now ttl = (none, false) ∧
    cache_get false p now ttl = (none, false) := by
  unfold cache_get
  refine ⟨?_, ?_, by simp, by simp⟩
  · intro h
    simp [not_lt.2 h]
  · intro h
    simp [h]

/-- Witness for the amended C8: a fresh entry is served, a stale one is
evicted and missed. -/
theorem C8_amended_cache_ttl_witness :
    cache_get (V := Nat) true (some (0, some 7)) 10 100 = (some 7, false) ∧
    cache_get (V := Nat) true (some (0, some 7)) 300 100 = (none, true) := by
  constructor
  · exact (C8_amended_cache_ttl 0 10 100 (some 7) none).1 (by decide)
  · exact (C8_amended_cache_ttl 0 300 100 (some 7) none).2.1 (by decide)

/-! ## Claim C7 -/

/-- Claim C7 fails on the code (code bug): with `max_calls = 1` and a
60-second window, acquires entering at clock values 0, 0 and 60 record the
call history 0, 60, 60 — the second call is slept exactly to the window
boundary of the first and recorded while the first still counts as
in-window under the purge rule, and the third is admitted with no delay at
all, so two calls (more than `max_calls`) are recorded inside the trailing
window of length 60 ending at time 60 (indeed both at the same instant). -/
theorem C7_boundary_overadmission :
    C7x_history = [0, 60, 60] ∧
    (C7x_history.countP (fun t => decide ((60 : ℤ) - 60 < t ∧ t ≤ 60))) = 2 ∧
    2 > 1 := by decide

/-! ## Claim C3 -/

/-- Claim C3 fails on the code (code bug): when the index write fails, the
`IOError` is swallowed inside `_save_index`, so `quarantine_file` still
deletes the original, returns `True`, and leaves a ciphertext blob on disk
with no corresponding index entry. -/
theorem C3_index_failure_deletes_original :
    C3x_outcome.original_deleted = true ∧ C3x_outcome.returned = true ∧
    C3x_outcome.state.blobs = [("20250101_000000_1", [2, 3, 4])] ∧
    C3x_outcome.state.index = [] := by decide

/-! ## Claim C4 -/

/-- Claim C4: quarantining a file and then restoring it by its entry id
writes exactly the original bytes to the restore target, and afterwards
neither a blob nor an index entry for that id remains.  `hinv` states that
Fernet decryption inverts encryption, `hfresh` that the generated id is not
already present in the index; all disk writes succeed. -/
theorem C4_quarantine_restore_roundtrip
    (st : VaultState) (data : List Nat) (encrypt_enabled : Bool)
    (enc dec : List Nat → List Nat)
    (qid original_path threat_name detection_method quarantined_at : String)
    (file_size : Nat) (restore_path : Option String)
    (hinv : ∀ b, dec (enc b) = b)
    (hfresh : ∀ e ∈ st.index, e.id ≠ qid) :
    (quarantine_file st true data encrypt_enabled enc qid original_path
        threat_name detection_method quarantined_at file_size true true).returned
      = true ∧
    (restore_file
        (quarantine_file st true data encrypt_enabled enc qid original_path
          threat_name detection_method quarantined_at file_size true true).state
        qid restore_path encrypt_enabled dec true).returned = true ∧
    (restore_file
        (quarantine_file st true data encrypt_enabled enc qid original_path
          threat_name detection_method quarantined_at file_size true true).state
        qid restore_path encrypt_enabled dec true).written
      = some (restore_path.getD original_path, data) ∧
    (∀ b ∈ (restore_file
        (quarantine_file st true data encrypt_enabled enc qid original_path
          threat_name detection_method quarantined_at file_size true true).state
        qid restore_path encrypt_enabled dec true).state.blobs, b.1 ≠ qid) ∧
    (∀ e ∈ (restore_file
        (quarantine_file st true data encrypt_enabled enc qid original_path
          threat_name detection_method quarantined_at file_size true true).state
        qid restore_path encrypt_enabled dec true).state.index, e.id ≠ qid) := by
  have hq : quarantine_file st true data encrypt_enabled enc qid original_path
      threat_name detection_method quarantined_at file_size true true =
      { state :=
          { blobs := st.blobs.filter (fun p => p.1 ≠ qid)
              ++ [(qid, if encrypt_enabled then enc data else data)],
            index := st.index ++
              [{ id := qid, original_path := original_path,
                 threat_name := threat_name,
                 detection_method := detection_method,
                 quarantined_at := quarantined_at, file_size := file_size,
                 encrypted := encrypt_enabled }] },
        original_deleted := true, returned := true } := rfl
  rw [hq]
  have hfind_idx : (st.index ++
      [{ id := qid, original_path := original_path, threat_name := threat_name,
         detection_method := detection_method, quarantined_at := quarantined_at,
         file_size := file_size, encrypted := encrypt_enabled : QEntry }]).find?
        (fun e => e.id = qid) =
      some { id := qid, original_path := original_path, threat_name := threat_name,
             detection_method := detection_method, quarantined_at := quarantined_at,
             file_size := file_size, encrypted := encrypt_enabled } := by
    rw [List.find?_append, List.find?_eq_none.2 (fun e he => by simpa using hfresh e he)]
    simp
  have hfind_blob : (st.blobs.filter (fun p => p.1 ≠ qid)
      ++ [(qid, if encrypt_enabled then enc data else data)]).find?
        (fun p => p.1 = qid) =
      some (qid, if encrypt_enabled then enc data else data) := by
    rw [List.find?_append, List.find?_eq_none.2 ?_]
    · simp
    · intro p hp
      have := (List.mem_filter.1 hp).2
      simpa using this
  unfold restore_file
  simp only [hfind_idx, hfind_blob]
  refine ⟨trivial, trivial, ?_, ?_, ?_⟩
  · cases encrypt_enabled <;> simp [hinv]
  · intro b hb
    have := (List.mem_filter.1 hb).2
    simpa using this
  · intro e he
    simp only [save_index, if_pos rfl] at he
    have := (List.mem_filter.1 he).2
    simpa using this

/-- Witness for C4 with a one-element file, a shift cipher, and an empty
vault. -/
theorem C4_quarantine_restore_roundtrip_witness :
    (restore_file
        (quarantine_file { blobs := [], index := [] } true [1, 2, 3] true
          (fun l => 9 :: l) "id1" "/tmp/orig" "T" "signature" "2025" 3 true true).state
        "id1" none true (fun l => l.tail) true).written
      = some ("/tmp/orig", [1, 2, 3]) := by
  have h := C4_quarantine_restore_roundtrip { blobs := [], index := [] }
    [1, 2, 3] true (fun l => 9 :: l) (fun l => l.tail) "id1" "/tmp/orig" "T"
    "signature" "2025" 3 none (fun b => rfl) (by intro e he; simp at he)
  exact h.2.2.1

end AV
